import Mathlib

/-
Verification development for the Acquisition-OS financial core.

The repository is a TypeScript application; its calculation core is a set of
pure, synchronous functions over user-entered strings and numbers.  This file
gives a shallow embedding of that core in Lean 4:

* JavaScript numbers are modelled by `ℚ` (the code performs only field
  arithmetic, `Math.pow` with integer exponents, and `Math.round`; exact
  rational arithmetic reproduces every identity the claims are about, and
  `NaN` is modelled by `Option`).  The non-finite value `Infinity` is not
  representable in `ℚ`; the embedded `parseFloat` maps the literal
  `"Infinity"` to `none` (no claim in this development touches it).
* Strings are Lean `String`s / `List Char`; the handful of JavaScript string
  operations used by the core (`replace` with the concrete regexes appearing
  in the source, `split`, `trim`, `toLowerCase`, `slice`) are embedded
  explicitly.
* `x || d` on numbers (JS truthiness) maps `NaN` and `0` to the default `d`.
-/

namespace AcqOS

namespace Js

/-- Decimal digit value of a character. -/
def digitVal (c : Char) : ℕ := c.toNat - Char.toNat '0'

/-- Value of a string of decimal digits, most significant first. -/
def natOfDigits (l : List Char) : ℕ := l.foldl (fun a c => 10 * a + digitVal c) 0

/-- The whitespace characters skipped by `parseFloat` / `parseInt`. -/
def isWs (c : Char) : Bool := c = ' ' || c = '\t' || c = '\n' || c = '\r'

/-- Leading optional sign. Returns the sign as `ℚ` and the remainder. -/
def splitSign : List Char → ℚ × List Char
  | '-' :: r => (-1, r)
  | '+' :: r => (1, r)
  | r => (1, r)

/-- Longest leading unsigned decimal significand `Digits [. Digits] | . Digits`
of a character list, with the unconsumed remainder; `none` when no digit is
consumed (the `NaN` case of `parseFloat`). -/
def parseSignificand (l : List Char) : Option (ℚ × List Char) :=
  let intDigits := l.takeWhile Char.isDigit
  let rest := l.drop intDigits.length
  match rest with
  | '.' :: rest2 =>
      let fracDigits := rest2.takeWhile Char.isDigit
      if intDigits = [] ∧ fracDigits = [] then none
      else some ((natOfDigits intDigits : ℚ) +
                  (natOfDigits fracDigits : ℚ) / 10 ^ fracDigits.length,
                 rest2.drop fracDigits.length)
  | _ => if intDigits = [] then none else some ((natOfDigits intDigits : ℚ), rest)

/-- Optional exponent (`e`/`E`, optional sign, digits) directly after the
significand; `parseFloat` consumes it only when at least one exponent digit
follows, otherwise the significand value stands. -/
def applyExponent (q : ℚ) : List Char → ℚ
  | c :: rest =>
      if c = 'e' ∨ c = 'E' then
        let se : ℤ × List Char :=
          match rest with
          | '-' :: r => (-1, r)
          | '+' :: r => (1, r)
          | r => (1, r)
        let eDigits := se.2.takeWhile Char.isDigit
        if eDigits = [] then q else q * (10 : ℚ) ^ (se.1 * (natOfDigits eDigits : ℤ))
      else q
  | [] => q

/-- JS `parseFloat` on a character list: skip leading whitespace, optional
sign, then the longest valid decimal-literal prefix; `none` for `NaN` (and for
the non-finite `Infinity` literal, see the header comment). -/
def parseFloatChars (l : List Char) : Option ℚ :=
  let l1 := l.dropWhile isWs
  let s := splitSign l1
  if s.2.take 8 = [ 'I', 'n', 'f', 'i', 'n', 'i', 't', 'y'] then none
  else
    match parseSignificand s.2 with
    | none => none
    | some (q, rest) => some (s.1 * applyExponent q rest)

/-- JS `parseFloat` on a string. -/
def parseFloat (s : String) : Option ℚ := parseFloatChars s.data

/-- JS `Number(str)` restricted to strings of decimal digits and dots — the
only strings it receives in this code base, which feeds it the output of
`replace(/[^0-9.]/g, '')`.  The empty string converts to `0`; otherwise the
whole string must be `Digits [. Digits] | . Digits`; anything else (for
example a second dot) is `NaN`, i.e. `none`. -/
def numberOfDigitsDots (l : List Char) : Option ℚ :=
  if l = [] then some 0
  else
    let intDigits := l.takeWhile Char.isDigit
    let rest := l.drop intDigits.length
    match rest with
    | [] => some ((natOfDigits intDigits : ℚ))
    | '.' :: rest2 =>
        let fracDigits := rest2.takeWhile Char.isDigit
        if rest2.drop fracDigits.length ≠ [] then none
        else if intDigits = [] ∧ fracDigits = [] then none
        else some ((natOfDigits intDigits : ℚ) +
                   (natOfDigits fracDigits : ℚ) / 10 ^ fracDigits.length)
    | _ => none

/-- JS `parseInt(s, 10)`: skip whitespace, optional sign, longest digit
sequence; `none` for `NaN`.  (The legacy `0x` hexadecimal form of the
radix-free `parseInt` is not modelled; every relevant call site either passes
radix 10 or receives plain month/term numerals.) -/
def parseIntTen (s : String) : Option ℤ :=
  let l1 := s.data.dropWhile isWs
  let si : ℤ × List Char :=
    match l1 with
    | '-' :: r => (-1, r)
    | '+' :: r => (1, r)
    | r => (1, r)
  let ds := si.2.takeWhile Char.isDigit
  if ds = [] then none else some (si.1 * (natOfDigits ds : ℤ))

/-- JS `x || d` where `x` is a parse result: `NaN` (`none`) and `0` are falsy
and give the default. -/
def orElse (x : Option ℚ) (d : ℚ) : ℚ :=
  match x with
  | none => d
  | some v => if v = 0 then d else v

/-- JS `x || d` on an integer parse result. -/
def orElseInt (x : Option ℤ) (d : ℤ) : ℤ :=
  match x with
  | none => d
  | some v => if v = 0 then d else v

/-- JS `Math.round`: round half toward positive infinity, i.e. the floor of
`q + 1/2`.  The floor of a rational is its numerator floor-divided by its
(positive) denominator. -/
def round (q : ℚ) : ℤ := (q + 1 / 2).num.fdiv ((q + 1 / 2).den : ℤ)

/-- JS `String.prototype.toLowerCase` on the ASCII range used here. -/
def lower (s : String) : String := ⟨s.data.map Char.toLower⟩

/-- The whitespace class of JS `String.prototype.trim` (ASCII part plus
no-break space). -/
def isTrimWs (c : Char) : Bool :=
  c = ' ' || c = '\t' || c = '\n' || c = '\r' ||
  c = '\x0b' || c = '\x0c' || c = '\u00A0'

/-- JS `String.prototype.trim`: drop leading and trailing whitespace. -/
def trim (s : String) : String :=
  ⟨((s.data.dropWhile isTrimWs).reverse.dropWhile isTrimWs).reverse⟩

/-- Scanner for JS `String.prototype.split` with a nonempty string
separator: at each position, a separator occurrence ends the current field
and scanning resumes after it.  The fuel only makes the recursion
structural; started at the list's length it never runs out, since every
step consumes at least one character. -/
def splitAux (sep : List Char) : ℕ → List Char → List Char → List (List Char)
  | _, acc, [] => [acc.reverse]
  | 0, acc, l => [acc.reverse ++ l]
  | fuel + 1, acc, c :: rest =>
      if sep.isPrefixOf (c :: rest) then
        acc.reverse :: splitAux sep fuel [] ((c :: rest).drop sep.length)
      else splitAux sep fuel (c :: acc) rest

/-- JS `s.split(sep)` for a nonempty string separator (every call site in
this code base passes a nonempty literal separator). -/
def split (s sep : String) : List String :=
  (splitAux sep.data s.data.length [] s.data).map (fun l => (⟨l⟩ : String))

end Js

namespace FinancialAnalysisHub

/-- `src/components/FinancialAnalysisHub.tsx` line 176:
`parseFloat(String(val).replace(/,/g, '')) || 0` — only commas are removed
before the prefix parse. -/
def parseNum (val : String) : ℚ :=
  Js.orElse (Js.parseFloatChars (val.data.filter (fun c => c ≠ ','))) 0

/-- One fiscal period's raw statement line items, all free-text numeric
strings (`FinancialPeriod` in `FinancialAnalysisHub.tsx`). -/
structure FinancialPeriod where
  id : String
  periodName : String
  revenue : String
  cogs : String
  operatingExpenses : String
  depreciation : String
  amortization : String
  interestExpense : String
  taxes : String
  cash : String
  accountsReceivable : String
  inventory : String
  otherCurrentAssets : String
  longTermAssets : String
  accountsPayable : String
  shortTermDebt : String
  otherCurrentLiabilities : String
  longTermDebt : String
  shareholderEquity : String
deriving DecidableEq

/-- A discretionary normalization entry; `calculationResults` reads only its
`amount` field. -/
structure AddBack where
  description : String
  amount : String
  category : String
deriving DecidableEq

/-- The slice of the hub's state read by `calculationResults`. -/
structure HubData where
  periods : List FinancialPeriod
  ytdActuals : FinancialPeriod
  ytdMonths : String
  addBacks : List AddBack
  ownerCompAddBack : String
deriving DecidableEq

/-- The record returned by `calculateMetrics` (lines 631–635). -/
structure Metrics where
  id : String
  periodName : String
  revenue : ℚ
  grossProfit : ℚ
  ebitda : ℚ
  netIncome : ℚ
  normalizedEbitda : ℚ
  normalizedSde : ℚ
  netWorkingCapital : ℚ
  totalAssets : ℚ
  revenueGrowth : ℚ
  grossMargin : ℚ
  ebitdaMargin : ℚ
  netMargin : ℚ
  currentRatio : ℚ
  quickRatio : ℚ
  dso : ℚ
  dpo : ℚ
deriving DecidableEq

/-- Line 575: `data.addBacks.reduce((sum, b) => sum + parseNum(b.amount), 0)`. -/
def generalAddBacks (data : HubData) : ℚ :=
  data.addBacks.foldl (fun sum b => sum + parseNum b.amount) 0

/-- Line 579: `parseInt(data.ytdMonths) || 1` — `NaN` and a parsed `0` both
fall back to 1; any other parsed value (negative included) is kept. -/
def ytdMonthsOf (s : String) : ℤ := Js.orElseInt (Js.parseIntTen s) 1

/-- Line 580: `ytdMonths > 0 && ytdMonths < 12 ? 12 / ytdMonths : 1`. -/
def annualizationFactor (s : String) : ℚ :=
  let m := ytdMonthsOf s
  if 0 < m ∧ m < 12 then 12 / (m : ℚ) else 1

/-- Lines 582–636: per-period metric computation.  `totalAddBacks`,
`ownerComp` and `annualizationFactor` are the enclosing closure's values. -/
def calculateMetrics (totalAddBacks ownerComp annFactor : ℚ)
    (p : FinancialPeriod) (prevPeriod : Option FinancialPeriod)
    (isAnnualized : Bool) : Metrics :=
  let revenue := if isAnnualized then parseNum p.revenue * annFactor else parseNum p.revenue
  let cogs := if isAnnualized then parseNum p.cogs * annFactor else parseNum p.cogs
  let opEx := if isAnnualized then parseNum p.operatingExpenses * annFactor
              else parseNum p.operatingExpenses
  let depr := parseNum p.depreciation
  let amort := parseNum p.amortization
  let interest := parseNum p.interestExpense
  let taxes := parseNum p.taxes
  let cash := parseNum p.cash
  let ar := parseNum p.accountsReceivable
  let inventory := parseNum p.inventory
  let otherCurrentAssets := parseNum p.otherCurrentAssets
  let longTermAssets := parseNum p.longTermAssets
  let ap := parseNum p.accountsPayable
  let shortTermDebt := parseNum p.shortTermDebt
  let otherCurrentLiabilities := parseNum p.otherCurrentLiabilities
  let grossProfit := revenue - cogs
  let ebitda := grossProfit - opEx
  let ebit := ebitda - depr - amort
  let netIncome := ebit - interest - taxes
  let normalizedEbitda := ebitda + totalAddBacks - ownerComp
  let normalizedSde := normalizedEbitda + ownerComp
  let totalCurrentAssets := cash + ar + inventory + otherCurrentAssets
  let totalAssets := totalCurrentAssets + longTermAssets
  let totalCurrentLiabilities := ap + shortTermDebt + otherCurrentLiabilities
  let netWorkingCapital := (ar + inventory + otherCurrentAssets) - (ap + otherCurrentLiabilities)
  let prevRevenue := match prevPeriod with
    | some pp => parseNum pp.revenue
    | none => 0
  let revenueGrowth := if prevRevenue = 0 then 0 else (revenue - prevRevenue) / prevRevenue
  let grossMargin := if revenue = 0 then 0 else grossProfit / revenue
  let ebitdaMargin := if revenue = 0 then 0 else ebitda / revenue
  let netMargin := if revenue = 0 then 0 else netIncome / revenue
  let currentRatio := if totalCurrentLiabilities = 0 then 0
                      else totalCurrentAssets / totalCurrentLiabilities
  let quickRatio := if totalCurrentLiabilities = 0 then 0
                    else (cash + ar) / totalCurrentLiabilities
  let prevAR := match prevPeriod with
    | some pp => parseNum pp.accountsReceivable
    | none => ar
  let avgAR := (ar + prevAR) / 2
  let dso := if revenue = 0 then 0 else avgAR / revenue * 365
  let prevAP := match prevPeriod with
    | some pp => parseNum pp.accountsPayable
    | none => ap
  let avgAP := (ap + prevAP) / 2
  let dpo := if cogs = 0 then 0 else avgAP / cogs * 365
  { id := p.id, periodName := p.periodName, revenue := revenue,
    grossProfit := grossProfit, ebitda := ebitda, netIncome := netIncome,
    normalizedEbitda := normalizedEbitda, normalizedSde := normalizedSde,
    netWorkingCapital := netWorkingCapital, totalAssets := totalAssets,
    revenueGrowth := revenueGrowth, grossMargin := grossMargin,
    ebitdaMargin := ebitdaMargin, netMargin := netMargin,
    currentRatio := currentRatio, quickRatio := quickRatio,
    dso := dso, dpo := dpo }

/-- Comparator of line 639, `parseInt(a.periodName) - parseInt(b.periodName)`,
as a `Bool`-valued "less or equal": a `NaN` difference is treated as 0 (keep
relative order), matching the JS sort contract. -/
def periodLe (a b : FinancialPeriod) : Bool :=
  match Js.parseIntTen a.periodName, Js.parseIntTen b.periodName with
  | some x, some y => x ≤ y
  | _, _ => true

/-- Stable insertion used to model `Array.prototype.sort` (stable since
ES2019; no claim depends on the order among incomparable elements). -/
def insertPeriod (a : FinancialPeriod) : List FinancialPeriod → List FinancialPeriod
  | [] => [a]
  | b :: bs => if periodLe b a then b :: insertPeriod a bs else a :: b :: bs

/-- Stable sort of the period list by parsed period-name year. -/
def sortPeriods (l : List FinancialPeriod) : List FinancialPeriod :=
  l.foldl (fun acc a => insertPeriod a acc) []

/-- Lines 641–645: map `calculateMetrics` over the sorted periods, passing the
previous element as `prevPeriod` and flagging the synthetic id. -/
def calcSeq (totalAddBacks ownerComp annFactor : ℚ) :
    List FinancialPeriod → Option FinancialPeriod → List Metrics
  | [], _ => []
  | p :: rest, prev =>
      calculateMetrics totalAddBacks ownerComp annFactor p prev (p.id = "ytd-annualized") ::
        calcSeq totalAddBacks ownerComp annFactor rest (some p)

/-- The record returned by the `calculationResults` memo (line 651). -/
structure CalculationResults where
  calculations : List Metrics
  averageNWC : ℚ
  ytdActualsCalculations : Metrics
deriving DecidableEq

/-- Lines 574–652: the hub's calculation block.  `currentYear` stands for
`new Date().getFullYear()` (it only affects the synthetic period's display
name, hence its sort key). -/
def calculationResults (data : HubData) (currentYear : ℤ) : CalculationResults :=
  let genAB := generalAddBacks data
  let ownerComp := parseNum data.ownerCompAddBack
  let totalAddBacks := genAB + ownerComp
  let annFactor := annualizationFactor data.ytdMonths
  let ytdAnnualizedPeriod : FinancialPeriod :=
    { data.ytdActuals with periodName := toString currentYear ++ " (Ann.)",
                           id := "ytd-annualized" }
  let allPeriodsForCalc := sortPeriods (data.periods ++ [ytdAnnualizedPeriod])
  let calculations := calcSeq totalAddBacks ownerComp annFactor allPeriodsForCalc none
  let ytdActualsCalculations :=
    calculateMetrics totalAddBacks ownerComp annFactor data.ytdActuals none false
  let averageNWC :=
    if calculations.length = 0 then 0
    else (calculations.foldl (fun sum c => sum + c.netWorkingCapital) 0) /
           (calculations.length : ℚ)
  { calculations := calculations, averageNWC := averageNWC,
    ytdActualsCalculations := ytdActualsCalculations }

end FinancialAnalysisHub

namespace FinancialProjectionModeler

/-- `src/components/FinancialProjectionModeler.tsx` line 53:
`parseFloat(String(val).replace(/[^0-9.-]/g, '')) || 0` — every character
other than a digit, a dot or a minus sign is removed before the prefix
parse. -/
def parseNum (val : String) : ℚ :=
  Js.orElse
    (Js.parseFloatChars
      (val.data.filter (fun c => c.isDigit || c = '.' || c = '-'))) 0

/-- The assumption record of `FinancialProjectionModeler.tsx` (free-text
numeric fields plus the op-ex mode selector). -/
structure Assumptions where
  revenueGrowthY1_monthly : String
  revenueGrowthY2_annual : String
  revenueGrowthY3_annual : String
  cogsPercentOfRevenue : String
  opExCalculationMode : String
  opExPercentOfRevenue : String
  opExFixedAmount : String
  opExGrowthAnnual : String
  annualCapex : String
  debtServiceAnnual : String
  effectiveTaxRate : String
  startingRevenue : String
  startingEbitda : String
deriving DecidableEq

/-- The parsed parameter record `p` of lines 117–129. -/
structure Params where
  revGrowthMonthly : ℚ
  revGrowthY2 : ℚ
  revGrowthY3 : ℚ
  cogsPct : ℚ
  opExPct : ℚ
  opExFixed : ℚ
  opExGrowth : ℚ
  capex : ℚ
  debtService : ℚ
  taxRate : ℚ
  startRev : ℚ
deriving DecidableEq

/-- Lines 117–129: parse every assumption, percentages divided by 100. -/
def projectionParams (a : Assumptions) : Params :=
  { revGrowthMonthly := parseNum a.revenueGrowthY1_monthly / 100,
    revGrowthY2 := parseNum a.revenueGrowthY2_annual / 100,
    revGrowthY3 := parseNum a.revenueGrowthY3_annual / 100,
    cogsPct := parseNum a.cogsPercentOfRevenue / 100,
    opExPct := parseNum a.opExPercentOfRevenue / 100,
    opExFixed := parseNum a.opExFixedAmount,
    opExGrowth := parseNum a.opExGrowthAnnual / 100,
    capex := parseNum a.annualCapex,
    debtService := parseNum a.debtServiceAnnual,
    taxRate := parseNum a.effectiveTaxRate / 100,
    startRev := parseNum a.startingRevenue }

/-- One row pushed into `monthlyProjections` (line 147). -/
structure MonthRow where
  periodName : String
  revenue : ℚ
  cogs : ℚ
  grossProfit : ℚ
  opEx : ℚ
  ebitda : ℚ
  capex : ℚ
  taxes : ℚ
  netIncome : ℚ
  fcf : ℚ
deriving DecidableEq

/-- The body of the year-1 monthly loop (lines 134–148) for month `i`, given
`lastMonthRevenue`: note the growth factor is applied before the month's
revenue is recorded, month 1 included. -/
def year1MonthRow (mode : String) (p : Params) (i : ℕ) (lastMonthRevenue : ℚ) :
    MonthRow :=
  let revenue := lastMonthRevenue * (1 + p.revGrowthMonthly)
  let cogs := revenue * p.cogsPct
  let grossProfit := revenue - cogs
  let opEx := if mode = "percentOfRevenue" then revenue * p.opExPct else p.opExFixed / 12
  let ebitda := grossProfit - opEx
  let debtService := p.debtService / 12
  let capex := p.capex / 12
  let ebt := ebitda - debtService
  let taxes := if 0 < ebt then ebt * p.taxRate else 0
  let netIncome := ebt - taxes
  let fcf := ebitda - taxes - capex
  { periodName := "M" ++ toString i, revenue := revenue, cogs := cogs,
    grossProfit := grossProfit, opEx := opEx, ebitda := ebitda, capex := capex,
    taxes := taxes, netIncome := netIncome, fcf := fcf }

/-- The loop of lines 134–149, unrolled structurally: `k` months remain,
month index `i` is next, `lastRev` is the previous month's revenue. -/
def year1RowsAux (mode : String) (p : Params) : ℕ → ℕ → ℚ → List MonthRow
  | 0, _, _ => []
  | k + 1, i, lastRev =>
      let row := year1MonthRow mode p i lastRev
      row :: year1RowsAux mode p k (i + 1) row.revenue

/-- Lines 131–149: `lastMonthRevenue` starts at `p.startRev / 12` and twelve
monthly rows are produced. -/
def year1Monthly (mode : String) (p : Params) : List MonthRow :=
  year1RowsAux mode p 12 1 (p.startRev / 12)

/-- The `monthly` component of the `projections` memo (line 179). -/
def projectionsMonthly (a : Assumptions) : List MonthRow :=
  year1Monthly a.opExCalculationMode (projectionParams a)

end FinancialProjectionModeler

namespace ValuationCalculator

/-- `src/unnamed/part_004` lines 444–446:
`Number(value.replace(/[^0-9.]/g, '')) || 0` — every character other than a
digit or a dot (signs included) is removed, and the whole remainder must be a
decimal literal (empty remainder converts to 0). -/
def parseCurrency (value : String) : ℚ :=
  Js.orElse
    (Js.numberOfDigitsDots (value.data.filter (fun c => c.isDigit || c = '.'))) 0

/-- The `ValuationInputs` record of `src/unnamed/part_004` (all free text;
the last four fields are not read by the calculation block). -/
structure ValuationInputs where
  sde : String
  askingMultiple : String
  ownerSalary : String
  closingCosts : String
  liquidityMonths : String
  loanAmount : String
  sbaTerm : String
  sbaRate : String
  amortizingSellerNoteAmount : String
  standbySellerNoteAmount : String
  forgivableSellerNoteAmount : String
  amortizingNoteTerm : String
  amortizingNoteRate : String
  amortizingNoteType : String
  stressTestPercent : String
  standbyNoteRate : String
  standbyNoteTerm : String
  forgivenessPeriod : String
  forgivenessCondition : String
deriving DecidableEq

/-- The `ValuationErrors` object: a field is `some msg` when the advisory
message is attached to it (lines 518–526). -/
structure ValuationErrors where
  loanAmount : Option String
  amortizingSellerNoteAmount : Option String
  standbySellerNoteAmount : Option String
  forgivableSellerNoteAmount : Option String
deriving DecidableEq

/-- The record returned by the `calculations` memo (lines 568–572). -/
structure Calculations where
  enterpriseValue : ℚ
  buyerEquity : ℚ
  sbaDebtService : ℚ
  sellerNoteDebtService : ℚ
  totalDebtService : ℚ
  totalCashToClose : ℚ
  dscr : ℚ
  netCashFlowToOwner : ℚ
  isDscrLow : Bool
  liquidityTarget : ℚ
  validationErrors : ValuationErrors
  totalSellerFinancing : ℚ
deriving DecidableEq

/-- Lines 531–535 (and, with the seller note's inputs, lines 542–546): the
amortizing monthly payment.  `ratePct` is the annual rate in percent,
`termYears` the term in years; when both the payment count and the monthly
rate are positive the standard annuity formula applies, otherwise the
principal is divided evenly over the payments (0 when there are none). -/
def monthlyAmortizingPayment (loan ratePct : ℚ) (termYears : ℤ) : ℚ :=
  let monthlyRate := ratePct / 100 / 12
  let nPayments := termYears * 12
  if 0 < nPayments ∧ 0 < monthlyRate then
    loan * monthlyRate / (1 - (1 + monthlyRate) ^ (-nPayments))
  else if 0 < nPayments then loan / (nPayments : ℚ) else 0

/-- Lines 496–573: the whole calculation block.  `isAdvancedView` and
`isStressed` are the two pieces of component state it reads.  The float
literals `0.13`, `0.05`, `1.5` and `1.25` of the source are the exact
rationals below. -/
def calculations (inputs : ValuationInputs) (isAdvancedView isStressed : Bool) :
    Calculations :=
  let numSDE := parseCurrency inputs.sde
  let numAskingMultiple := Js.orElse (Js.parseFloat inputs.askingMultiple) 0
  let numLoanAmount := parseCurrency inputs.loanAmount
  let numAmortizingSellerNote := parseCurrency inputs.amortizingSellerNoteAmount
  let numStandbySellerNote := parseCurrency inputs.standbySellerNoteAmount
  let numForgivableSellerNote := parseCurrency inputs.forgivableSellerNoteAmount
  let totalSellerFinancing :=
    numAmortizingSellerNote + numStandbySellerNote + numForgivableSellerNote
  let numOwnerSalary := parseCurrency inputs.ownerSalary
  let numClosingCosts := parseCurrency inputs.closingCosts
  let numLiquidityMonths := Js.orElseInt (Js.parseIntTen inputs.liquidityMonths) 0
  let numSbaTerm := Js.orElseInt (Js.parseIntTen inputs.sbaTerm) 0
  let numSbaRate := Js.orElse (Js.parseFloat inputs.sbaRate) 0
  let numAmortizingNoteTerm := Js.orElseInt (Js.parseIntTen inputs.amortizingNoteTerm) 0
  let numAmortizingNoteRate := Js.orElse (Js.parseFloat inputs.amortizingNoteRate) 0
  let numStressTestPercent := Js.orElse (Js.parseFloat inputs.stressTestPercent) 0
  let enterpriseValue := numSDE * numAskingMultiple
  let buyerEquity := enterpriseValue - numLoanAmount - totalSellerFinancing
  let totalDebt := numLoanAmount + totalSellerFinancing
  let errMsg := "Total debt cannot exceed EV."
  let validationErrors : ValuationErrors :=
    if enterpriseValue < totalDebt then
      { loanAmount := some errMsg, amortizingSellerNoteAmount := some errMsg,
        standbySellerNoteAmount := some errMsg, forgivableSellerNoteAmount := some errMsg }
    else
      { loanAmount := none, amortizingSellerNoteAmount := none,
        standbySellerNoteAmount := none, forgivableSellerNoteAmount := none }
  let sbaDebtService :=
    if isAdvancedView then monthlyAmortizingPayment numLoanAmount numSbaRate numSbaTerm * 12
    else numLoanAmount * (13 / 100)
  let sellerNoteDebtService :=
    if isAdvancedView then
      if inputs.amortizingNoteType = "interestOnly" then
        numAmortizingSellerNote * (numAmortizingNoteRate / 100)
      else
        monthlyAmortizingPayment numAmortizingSellerNote numAmortizingNoteRate
          numAmortizingNoteTerm * 12
    else numAmortizingSellerNote * (5 / 100)
  let totalDebtService := sbaDebtService + sellerNoteDebtService
  let sdeForCalc := if isStressed then numSDE * (1 - numStressTestPercent / 100) else numSDE
  let cashAvailableForDebt := sdeForCalc - numOwnerSalary
  let dscr := if 0 < totalDebtService then cashAvailableForDebt / totalDebtService else 0
  let netCashFlowToOwner := cashAvailableForDebt - totalDebtService
  let liquidityTarget := totalDebtService / 12 * (numLiquidityMonths : ℚ)
  let totalCashToClose :=
    buyerEquity + numClosingCosts + (if isAdvancedView then liquidityTarget else 0)
  let dscrThreshold : ℚ := if isAdvancedView then 3 / 2 else 5 / 4
  { enterpriseValue := enterpriseValue, buyerEquity := buyerEquity,
    sbaDebtService := sbaDebtService, sellerNoteDebtService := sellerNoteDebtService,
    totalDebtService := totalDebtService, totalCashToClose := totalCashToClose,
    dscr := dscr, netCashFlowToOwner := netCashFlowToOwner,
    isDscrLow := decide (dscr < dscrThreshold), liquidityTarget := liquidityTarget,
    validationErrors := validationErrors, totalSellerFinancing := totalSellerFinancing }

end ValuationCalculator

namespace FitScore

/-
The fit scorer exists in two textually near-identical copies:
`calculateOverallFitScore` in `src/unnamed/part_003` (the sourcing engine)
and in `src/components/CentralDashboard.tsx` (the dashboard).  The criterion
map, the total-possible-score computation and the row loop are identical
character for character; the copies differ only in two normalizations
(the dashboard strips `**` from the criterion name and HTML tags from the
Fit cell).  The identical parts are defined once here; each copy's
`calculateOverallFitScore` is defined in its own namespace below.
-/

/-- A buy-box criterion as far as scoring is concerned.  In the source each
criterion is an object with a `value` (string, number or enum, depending on
the field) and a numeric `weight`; `calculateOverallFitScore` reads only the
`weight`. -/
structure WeightedCriterion where
  weight : ℚ
deriving DecidableEq

/-- The thirteen weight-bearing fields of `BuyBoxCriteria` (`App.tsx` lines
18–37).  The remaining fields (`industryExpertise`, an array, and the four
free-text fields) carry no `weight` member and are skipped by the
`typeof criteria === 'object' … && 'weight' in criteria` test of the score
loops. -/
structure BuyBoxCriteria where
  geography : WeightedCriterion
  industryType : WeightedCriterion
  minSde : WeightedCriterion
  maxSde : WeightedCriterion
  customerConcentration : WeightedCriterion
  minRecurringRevenue : WeightedCriterion
  growthLevers : WeightedCriterion
  industryTrends : WeightedCriterion
  sellerRole : WeightedCriterion
  teamStrength : WeightedCriterion
  businessModel : WeightedCriterion
  systemMessiness : WeightedCriterion
  myPrimaryRole : WeightedCriterion
deriving DecidableEq

/-- The keys `criteriaNameToKeyMap` can produce (identical tables in both
copies).  `industryExpertise` is listed in the map but its buy-box field is
an array, so it never passes the weight test. -/
inductive BuyBoxKey where
  | geography
  | industryType
  | minSde
  | minRecurringRevenue
  | customerConcentration
  | growthLevers
  | industryTrends
  | sellerRole
  | teamStrength
  | businessModel
  | systemMessiness
  | myPrimaryRole
  | industryExpertise
deriving DecidableEq

/-- `criteriaNameToKeyMap`: absent names and the explicit `'Culture': null`
entry both give `none` (both are falsy at the `if (buyBoxKey)` test). -/
def nameToKey (name : String) : Option BuyBoxKey :=
  if name = "Geography" then some .geography
  else if name = "Industry" then some .industryType
  else if name = "Financials (SDE)" then some .minSde
  else if name = "Revenue Quality" then some .minRecurringRevenue
  else if name = "Risk (Concentration)" then some .customerConcentration
  else if name = "Growth Levers" then some .growthLevers
  else if name = "Industry Trends" then some .industryTrends
  else if name = "Seller Role" then some .sellerRole
  else if name = "Team Strength" then some .teamStrength
  else if name = "Business Model" then some .businessModel
  else if name = "Systems" then some .systemMessiness
  else if name = "My Role" then some .myPrimaryRole
  else if name = "Industry Expertise" then some .industryExpertise
  else none

/-- The weight the score loop can extract for a key: `none` for
`industryExpertise`, whose buy-box field is an array. -/
def weightOfKey (bb : BuyBoxCriteria) : BuyBoxKey → Option ℚ
  | .geography => some bb.geography.weight
  | .industryType => some bb.industryType.weight
  | .minSde => some bb.minSde.weight
  | .minRecurringRevenue => some bb.minRecurringRevenue.weight
  | .customerConcentration => some bb.customerConcentration.weight
  | .growthLevers => some bb.growthLevers.weight
  | .industryTrends => some bb.industryTrends.weight
  | .sellerRole => some bb.sellerRole.weight
  | .teamStrength => some bb.teamStrength.weight
  | .businessModel => some bb.businessModel.weight
  | .systemMessiness => some bb.systemMessiness.weight
  | .myPrimaryRole => some bb.myPrimaryRole.weight
  | .industryExpertise => none

/-- Lines 254–268 of `part_003` (identical in the dashboard copy): the sum of
every weight in the buy box, with `maxSde`'s weight removed again when both
SDE bounds are weighted. -/
def totalPossibleScore (bb : BuyBoxCriteria) : ℚ :=
  let sumAll :=
    bb.geography.weight + bb.industryType.weight + bb.minSde.weight +
    bb.maxSde.weight + bb.customerConcentration.weight +
    bb.minRecurringRevenue.weight + bb.growthLevers.weight +
    bb.industryTrends.weight + bb.sellerRole.weight + bb.teamStrength.weight +
    bb.businessModel.weight + bb.systemMessiness.weight + bb.myPrimaryRole.weight
  if 0 < bb.minSde.weight ∧ 0 < bb.maxSde.weight then sumAll - bb.maxSde.weight
  else sumAll

/-- `row.split('|').map(c => c.trim())`. -/
def rowColumns (row : String) : List String := (Js.split row "|").map Js.trim

/-- `cell.split(' (Weight:')[0].trim()`. -/
def stripWeightLabel (cell : String) : String :=
  Js.trim ((Js.split cell " (Weight:").headD "")

/-- The dashboard copy's `.replace(/\*\*/g, '')`: remove each non-overlapping
`**` pair, scanning left to right. -/
def stripDoubleStars : List Char → List Char
  | '*' :: '*' :: rest => stripDoubleStars rest
  | c :: rest => c :: stripDoubleStars rest
  | [] => []

/-- Fuel-indexed scanner for the dashboard copy's `.replace(/<[^>]+>/g, '')`:
each `<`, followed by at least one non-`>` character, up to the next `>`, is
removed; an unmatched `<` is kept and scanning resumes one character later.
The fuel only makes the recursion structural; it never runs out when it
starts at the list's length, since every recursive call shortens the list. -/
def stripTagsAux : ℕ → List Char → List Char
  | 0, l => l
  | _ + 1, [] => []
  | fuel + 1, c :: rest =>
      let tag := rest.takeWhile (fun d => d ≠ '>')
      if c = '<' ∧ tag ≠ [] ∧ rest.drop tag.length ≠ [] then
        stripTagsAux fuel (rest.drop (tag.length + 1))
      else c :: stripTagsAux fuel rest

/-- The dashboard copy's `.replace(/<[^>]+>/g, '')`. -/
def stripTags (l : List Char) : List Char := stripTagsAux l.length l

end FitScore

namespace SourcingEngine

open FitScore

/-- Line 278: the sourcing copy's criterion-name normalization —
`split(' (Weight:')[0].trim()`, with no `**` stripping. -/
def nameNorm (cell : String) : String := stripWeightLabel cell

/-- Line 280: the sourcing copy's Fit-cell normalization — `toLowerCase()`
only, with no HTML-tag stripping. -/
def fitNorm (cell : String) : String := Js.lower cell

/-- The contribution of one table row in the `rows.forEach` loop of
`part_003` lines 273–295: the sourcing copy neither strips `**` from the
criterion name nor HTML tags from the Fit cell. -/
def rowScore (bb : BuyBoxCriteria) (row : String) : ℚ :=
  let columns := rowColumns row
  if 4 ≤ columns.length then
    let criteriaName := nameNorm (columns.getD 1 "")
    let fit := fitNorm (columns.getD 3 "")
    match nameToKey criteriaName with
    | some key =>
        match weightOfKey bb key with
        | some weight =>
            if fit = "yes" then weight
            else if fit = "?" then weight * (3 / 10)
            else 0
        | none => 0
    | none => 0
  else 0

/-- `calculateOverallFitScore` of `src/unnamed/part_003` lines 251–298. -/
def calculateOverallFitScore (scorecard : String) (bb : BuyBoxCriteria) :
    Option ℤ :=
  if scorecard = "" then none
  else
    let total := totalPossibleScore bb
    if total = 0 then some 50
    else
      let rows := (Js.split scorecard "\n").drop 2
      let achievedScore := rows.foldl (fun acc row => acc + rowScore bb row) 0
      some (Js.round (achievedScore / total * 100))

end SourcingEngine

namespace CentralDashboard

open FitScore

/-- Line 301: the dashboard copy's criterion-name normalization —
`split(' (Weight:')[0].trim().replace(/\*\*/g, '')`. -/
def nameNorm (cell : String) : String :=
  ⟨stripDoubleStars (stripWeightLabel cell).data⟩

/-- Line 303: the dashboard copy's Fit-cell normalization —
`toLowerCase().replace(/<[^>]+>/g, '')`. -/
def fitNorm (cell : String) : String := ⟨stripTags (Js.lower cell).data⟩

/-- The contribution of one table row in the `rows.forEach` loop of
`CentralDashboard.tsx` lines 297–318: this copy strips `**` from the
criterion name (line 301) and HTML tags from the lowercased Fit cell
(line 303). -/
def rowScore (bb : BuyBoxCriteria) (row : String) : ℚ :=
  let columns := rowColumns row
  if 4 ≤ columns.length then
    let criteriaName : String := nameNorm (columns.getD 1 "")
    let fit : String := fitNorm (columns.getD 3 "")
    match nameToKey criteriaName with
    | some key =>
        match weightOfKey bb key with
        | some weight =>
            if fit = "yes" then weight
            else if fit = "?" then weight * (3 / 10)
            else 0
        | none => 0
    | none => 0
  else 0

/-- `calculateOverallFitScore` of `CentralDashboard.tsx` lines 277–321. -/
def calculateOverallFitScore (scorecard : String) (bb : BuyBoxCriteria) :
    Option ℤ :=
  if scorecard = "" then none
  else
    let total := totalPossibleScore bb
    if total = 0 then some 50
    else
      let rows := (Js.split scorecard "\n").drop 2
      let achievedScore := rows.foldl (fun acc row => acc + rowScore bb row) 0
      some (Js.round (achievedScore / total * 100))

end CentralDashboard

/-
Spec-side comparison definitions.  These follow the specification's words
(not the source) and exist only to be compared with the definitions above.
-/

/-- A whole character list parsed as a finite decimal: optional sign, then
`Digits [. Digits] | . Digits`, nothing left over. -/
def specDecimalChars (l : List Char) : Option ℚ :=
  let s := Js.splitSign l
  match Js.parseSignificand s.2 with
  | some (q, []) => some (s.1 * q)
  | _ => none

/-- The spec's `parseAmount`: "strips thousands-separator characters and any
non-numeric characters except sign/decimal point; returns 0 if the result
does not parse as a finite decimal". -/
def specParseAmount (str : String) : ℚ :=
  (specDecimalChars
    (str.data.filter (fun c => c.isDigit || c = '-' || c = '+' || c = '.'))).getD 0

namespace ValuationCalculator

/-- The spec's "a run without the violation flag": the calculation block of
lines 496–573 with the total-debt validation removed and every downstream
output computed from the as-entered values exactly as before. -/
def calculationsWithoutValidation (inputs : ValuationInputs)
    (isAdvancedView isStressed : Bool) : Calculations :=
  let numSDE := parseCurrency inputs.sde
  let numAskingMultiple := Js.orElse (Js.parseFloat inputs.askingMultiple) 0
  let numLoanAmount := parseCurrency inputs.loanAmount
  let numAmortizingSellerNote := parseCurrency inputs.amortizingSellerNoteAmount
  let numStandbySellerNote := parseCurrency inputs.standbySellerNoteAmount
  let numForgivableSellerNote := parseCurrency inputs.forgivableSellerNoteAmount
  let totalSellerFinancing :=
    numAmortizingSellerNote + numStandbySellerNote + numForgivableSellerNote
  let numOwnerSalary := parseCurrency inputs.ownerSalary
  let numClosingCosts := parseCurrency inputs.closingCosts
  let numLiquidityMonths := Js.orElseInt (Js.parseIntTen inputs.liquidityMonths) 0
  let numSbaTerm := Js.orElseInt (Js.parseIntTen inputs.sbaTerm) 0
  let numSbaRate := Js.orElse (Js.parseFloat inputs.sbaRate) 0
  let numAmortizingNoteTerm := Js.orElseInt (Js.parseIntTen inputs.amortizingNoteTerm) 0
  let numAmortizingNoteRate := Js.orElse (Js.parseFloat inputs.amortizingNoteRate) 0
  let numStressTestPercent := Js.orElse (Js.parseFloat inputs.stressTestPercent) 0
  let enterpriseValue := numSDE * numAskingMultiple
  let buyerEquity := enterpriseValue - numLoanAmount - totalSellerFinancing
  let sbaDebtService :=
    if isAdvancedView then monthlyAmortizingPayment numLoanAmount numSbaRate numSbaTerm * 12
    else numLoanAmount * (13 / 100)
  let sellerNoteDebtService :=
    if isAdvancedView then
      if inputs.amortizingNoteType = "interestOnly" then
        numAmortizingSellerNote * (numAmortizingNoteRate / 100)
      else
        monthlyAmortizingPayment numAmortizingSellerNote numAmortizingNoteRate
          numAmortizingNoteTerm * 12
    else numAmortizingSellerNote * (5 / 100)
  let totalDebtService := sbaDebtService + sellerNoteDebtService
  let sdeForCalc := if isStressed then numSDE * (1 - numStressTestPercent / 100) else numSDE
  let cashAvailableForDebt := sdeForCalc - numOwnerSalary
  let dscr := if 0 < totalDebtService then cashAvailableForDebt / totalDebtService else 0
  let netCashFlowToOwner := cashAvailableForDebt - totalDebtService
  let liquidityTarget := totalDebtService / 12 * (numLiquidityMonths : ℚ)
  let totalCashToClose :=
    buyerEquity + numClosingCosts + (if isAdvancedView then liquidityTarget else 0)
  let dscrThreshold : ℚ := if isAdvancedView then 3 / 2 else 5 / 4
  { enterpriseValue := enterpriseValue, buyerEquity := buyerEquity,
    sbaDebtService := sbaDebtService, sellerNoteDebtService := sellerNoteDebtService,
    totalDebtService := totalDebtService, totalCashToClose := totalCashToClose,
    dscr := dscr, netCashFlowToOwner := netCashFlowToOwner,
    isDscrLow := decide (dscr < dscrThreshold), liquidityTarget := liquidityTarget,
    validationErrors :=
      { loanAmount := none, amortizingSellerNoteAmount := none,
        standbySellerNoteAmount := none, forgivableSellerNoteAmount := none },
    totalSellerFinancing := totalSellerFinancing }

end ValuationCalculator

/-
Concrete fixtures used by witnesses and counterexamples.
-/

namespace Fixtures

open FitScore

/-- A small financial period. -/
def samplePeriod : FinancialAnalysisHub.FinancialPeriod :=
  { id := "p0", periodName := "2023", revenue := "100", cogs := "40",
    operatingExpenses := "30", depreciation := "5", amortization := "1",
    interestExpense := "2", taxes := "3", cash := "10",
    accountsReceivable := "20", inventory := "8", otherCurrentAssets := "2",
    longTermAssets := "50", accountsPayable := "12", shortTermDebt := "4",
    otherCurrentLiabilities := "6", longTermDebt := "30", shareholderEquity := "38" }

/-- A small hub dataset: no user periods, a YTD period of six months, one
general add-back of 10 and an owner-compensation add-back of 5. -/
def hubData : FinancialAnalysisHub.HubData :=
  { periods := [], ytdActuals := samplePeriod, ytdMonths := "6",
    addBacks := [{ description := "one-time", amount := "10", category := "other" }],
    ownerCompAddBack := "5" }

/-- An all-zero metrics record, used only as a `getD` default. -/
def defaultMetrics : FinancialAnalysisHub.Metrics :=
  { id := "", periodName := "", revenue := 0, grossProfit := 0, ebitda := 0,
    netIncome := 0, normalizedEbitda := 0, normalizedSde := 0,
    netWorkingCapital := 0, totalAssets := 0, revenueGrowth := 0,
    grossMargin := 0, ebitdaMargin := 0, netMargin := 0, currentRatio := 0,
    quickRatio := 0, dso := 0, dpo := 0 }

/-- The first computed metrics row of `hubData` (the synthetic annualized
period, since `hubData` has no user periods). -/
def hubMetrics : FinancialAnalysisHub.Metrics :=
  (FinancialAnalysisHub.calculationResults hubData 2025).calculations.getD 0 defaultMetrics

/-- A buy box with every weight zero. -/
def zeroBuyBox : BuyBoxCriteria :=
  { geography := ⟨0⟩, industryType := ⟨0⟩, minSde := ⟨0⟩, maxSde := ⟨0⟩,
    customerConcentration := ⟨0⟩, minRecurringRevenue := ⟨0⟩, growthLevers := ⟨0⟩,
    industryTrends := ⟨0⟩, sellerRole := ⟨0⟩, teamStrength := ⟨0⟩,
    businessModel := ⟨0⟩, systemMessiness := ⟨0⟩, myPrimaryRole := ⟨0⟩ }

/-- Geography weighted 2 and Industry weighted 3, everything else 0 — the
specification's §8 example. -/
def geoIndustryBuyBox : BuyBoxCriteria :=
  { zeroBuyBox with geography := ⟨2⟩, industryType := ⟨3⟩ }

/-- Geography weighted 2, everything else 0. -/
def geoBuyBox : BuyBoxCriteria := { zeroBuyBox with geography := ⟨2⟩ }

/-- The specification's §8 example scorecard: Geography is a "Yes", Industry
a "No". -/
def exScorecard : String :=
  "| Criterion | Status | Fit | Rationale |\n| --- | --- | --- | --- |\n| Geography (Weight: 2) | Houston | Yes | ok |\n| Industry (Weight: 3) | SaaS | No | ok |"

/-- One Geography row whose Fit cell is wrapped in `<b>` tags. -/
def boldScorecard : String :=
  "| Criterion | Status | Fit | Rationale |\n| --- | --- | --- | --- |\n| Geography (Weight: 2) | Houston | <b>Yes</b> | ok |"

/-- The same row with a plain Fit cell. -/
def plainScorecard : String :=
  "| Criterion | Status | Fit | Rationale |\n| --- | --- | --- | --- |\n| Geography (Weight: 2) | Houston | Yes | ok |"

/-- Modeler assumptions: starting annual revenue 12 and 100% monthly growth
(every cost and rate 0). -/
def growthAssumptions : FinancialProjectionModeler.Assumptions :=
  { revenueGrowthY1_monthly := "100", revenueGrowthY2_annual := "0",
    revenueGrowthY3_annual := "0", cogsPercentOfRevenue := "0",
    opExCalculationMode := "percentOfRevenue", opExPercentOfRevenue := "0",
    opExFixedAmount := "0", opExGrowthAnnual := "0", annualCapex := "0",
    debtServiceAnnual := "0", effectiveTaxRate := "0",
    startingRevenue := "12", startingEbitda := "0" }

/-- Valuation inputs whose total debt (200) exceeds the enterprise value
(100 × 1 = 100). -/
def violatingInputs : ValuationCalculator.ValuationInputs :=
  { sde := "100", askingMultiple := "1", ownerSalary := "0", closingCosts := "0",
    liquidityMonths := "3", loanAmount := "200", sbaTerm := "10", sbaRate := "9.5",
    amortizingSellerNoteAmount := "0", standbySellerNoteAmount := "0",
    forgivableSellerNoteAmount := "0", amortizingNoteTerm := "5",
    amortizingNoteRate := "6", amortizingNoteType := "interestOnly",
    stressTestPercent := "10", standbyNoteRate := "6", standbyNoteTerm := "10",
    forgivenessPeriod := "2", forgivenessCondition := "stays" }

/-- Valuation inputs with no standby or forgivable notes. -/
def baseInputs : ValuationCalculator.ValuationInputs :=
  { sde := "500,000", askingMultiple := "3.0", ownerSalary := "120,000",
    closingCosts := "40,000", liquidityMonths := "3", loanAmount := "1,050,000",
    sbaTerm := "10", sbaRate := "9.5", amortizingSellerNoteAmount := "150,000",
    standbySellerNoteAmount := "0", forgivableSellerNoteAmount := "0",
    amortizingNoteTerm := "5", amortizingNoteRate := "6.0",
    amortizingNoteType := "interestOnly", stressTestPercent := "10",
    standbyNoteRate := "6.0", standbyNoteTerm := "10", forgivenessPeriod := "2",
    forgivenessCondition := "stays" }

/-- The same inputs with large standby and forgivable notes. -/
def notedInputs : ValuationCalculator.ValuationInputs :=
  { baseInputs with standbySellerNoteAmount := "150,000",
                    forgivableSellerNoteAmount := "150,000" }

end Fixtures

/-
Theorems.

Batteries marks the `Rat` field operations `@[irreducible]`; inside this
section they are made unfoldable again so that `decide` can evaluate the
embedded definitions at the concrete witness and counterexample inputs.
-/

section ClaimTheorems

attribute [local semireducible] Rat.mul Rat.add Rat.sub Rat.inv

set_option maxRecDepth 40000

namespace FinancialAnalysisHub

lemma calculateMetrics_normalizedSde (t oc af : ℚ) (p : FinancialPeriod)
    (prev : Option FinancialPeriod) (b : Bool) :
    (calculateMetrics t oc af p prev b).normalizedSde
      = (calculateMetrics t oc af p prev b).normalizedEbitda + oc := rfl

lemma calculateMetrics_normalizedEbitda (t oc af : ℚ) (p : FinancialPeriod)
    (prev : Option FinancialPeriod) (b : Bool) :
    (calculateMetrics t oc af p prev b).normalizedEbitda
      = (calculateMetrics t oc af p prev b).ebitda + t - oc := rfl

lemma calcSeq_normalized (t oc af : ℚ) :
    ∀ (l : List FinancialPeriod) (prev : Option FinancialPeriod),
      ∀ m ∈ calcSeq t oc af l prev,
        m.normalizedSde = m.normalizedEbitda + oc ∧
        m.normalizedEbitda = m.ebitda + t - oc
  | [], _ => by intro m hm; simp [calcSeq] at hm
  | p :: rest, prev => by
      intro m hm
      simp only [calcSeq] at hm
      rcases List.mem_cons.mp hm with h | h
      · subst h
        exact ⟨calculateMetrics_normalizedSde t oc af p prev _,
               calculateMetrics_normalizedEbitda t oc af p prev _⟩
      · exact calcSeq_normalized t oc af rest (some p) m h

/-- Claim C1: for every hub dataset (hence every ordering of periods and of
add-backs) and every period row of `calculationResults` — the synthetic
annualized YTD period included, plus the non-annualized YTD row —
`normalizedSde = normalizedEbitda + ownerCompAddBack` and
`normalizedEbitda = ebitda + sum of the general (non-owner-comp)
add-backs`. -/
theorem hub_normalized_identity (data : HubData) (currentYear : ℤ) :
    (∀ m ∈ (calculationResults data currentYear).calculations,
        m.normalizedSde = m.normalizedEbitda + parseNum data.ownerCompAddBack ∧
        m.normalizedEbitda = m.ebitda + generalAddBacks data) ∧
    ((calculationResults data currentYear).ytdActualsCalculations.normalizedSde
        = (calculationResults data currentYear).ytdActualsCalculations.normalizedEbitda
            + parseNum data.ownerCompAddBack ∧
     (calculationResults data currentYear).ytdActualsCalculations.normalizedEbitda
        = (calculationResults data currentYear).ytdActualsCalculations.ebitda
            + generalAddBacks data) := by
  constructor
  · intro m hm
    have hm' : m ∈ calcSeq (generalAddBacks data + parseNum data.ownerCompAddBack)
        (parseNum data.ownerCompAddBack) (annualizationFactor data.ytdMonths)
        (sortPeriods (data.periods ++ [{ data.ytdActuals with
            periodName := toString currentYear ++ " (Ann.)",
            id := "ytd-annualized" }])) none := hm
    have h := calcSeq_normalized _ _ _ _ _ m hm'
    exact ⟨h.1, by rw [h.2]; ring⟩
  · refine ⟨calculateMetrics_normalizedSde _ _ _ _ _ _, ?_⟩
    have h := calculateMetrics_normalizedEbitda
      (generalAddBacks data + parseNum data.ownerCompAddBack)
      (parseNum data.ownerCompAddBack) (annualizationFactor data.ytdMonths)
      data.ytdActuals none false
    calc (calculationResults data currentYear).ytdActualsCalculations.normalizedEbitda
        = (calculationResults data currentYear).ytdActualsCalculations.ebitda
            + (generalAddBacks data + parseNum data.ownerCompAddBack)
            - parseNum data.ownerCompAddBack := h
      _ = (calculationResults data currentYear).ytdActualsCalculations.ebitda
            + generalAddBacks data := by ring

/-- Witness for C1: the theorem applied to the concrete `Fixtures.hubData`
at its first computed row. -/
theorem hub_normalized_identity_witness :
    Fixtures.hubMetrics.normalizedSde
      = Fixtures.hubMetrics.normalizedEbitda + parseNum Fixtures.hubData.ownerCompAddBack ∧
    Fixtures.hubMetrics.normalizedEbitda
      = Fixtures.hubMetrics.ebitda + generalAddBacks Fixtures.hubData :=
  (hub_normalized_identity Fixtures.hubData 2025).1 Fixtures.hubMetrics (by decide)

lemma ytdMonthsOf_falsy {s : String}
    (h : Js.parseIntTen s = none ∨ Js.parseIntTen s = some 0) :
    ytdMonthsOf s = 1 := by
  rcases h with h | h <;> simp [ytdMonthsOf, Js.orElseInt, h]

/-- Claim C9 (amended): a `ytdMonths` input that fails to parse or parses to
0 is treated as 1 month, so the annualization factor is 12; an input that
parses to a negative integer is kept, fails the positivity guard, and gives
factor 1 (in neither case is there a division by zero).  Income-statement
lines of the annualized period are multiplied by the factor, while
balance-sheet-derived outputs are unchanged. -/
theorem annualization_guard :
    (∀ s : String, Js.parseIntTen s = none ∨ Js.parseIntTen s = some 0 →
        annualizationFactor s = 12) ∧
    (∀ (s : String) (k : ℤ), Js.parseIntTen s = some k → k < 0 →
        annualizationFactor s = 1) ∧
    (∀ (t oc af : ℚ) (p : FinancialPeriod) (prev : Option FinancialPeriod),
        (calculateMetrics t oc af p prev true).revenue = parseNum p.revenue * af ∧
        (calculateMetrics t oc af p prev false).revenue = parseNum p.revenue ∧
        (calculateMetrics t oc af p prev true).netWorkingCapital
          = (calculateMetrics t oc af p prev false).netWorkingCapital ∧
        (calculateMetrics t oc af p prev true).totalAssets
          = (calculateMetrics t oc af p prev false).totalAssets) := by
  refine ⟨?_, ?_, ?_⟩
  · intro s h
    have h1 := ytdMonthsOf_falsy h
    simp [annualizationFactor, h1]
  · intro s k hk hneg
    have h1 : ytdMonthsOf s = k := by
      simp only [ytdMonthsOf, Js.orElseInt, hk]
      rw [if_neg (by omega)]
    simp only [annualizationFactor]
    rw [h1, if_neg (by omega)]
  · intro t oc af p prev
    exact ⟨rfl, rfl, rfl, rfl⟩

/-- Witness for C9: the guard evaluated at a zero and a negative input. -/
theorem annualization_guard_witness :
    annualizationFactor "0" = 12 ∧ annualizationFactor "-3" = 1 :=
  ⟨annualization_guard.1 "0" (Or.inr (by decide)),
   annualization_guard.2.1 "-3" (-3) (by decide) (by decide)⟩

/-- Counterexample to C9 as stated: the input `"-3"` parses to the negative
integer −3, yet the annualization factor is 1, not the 12 the claim (which
says negative parses are treated as `monthsElapsed = 1`) would require. -/
theorem annualization_negative_counterexample :
    annualizationFactor "-3" = 1 ∧ (1 : ℚ) ≠ 12 := by
  refine ⟨by decide, by norm_num⟩

end FinancialAnalysisHub

namespace FinancialProjectionModeler

lemma year1RowsAux_revenue (mode : String) (p : Params) :
    ∀ (k i : ℕ) (r : ℚ) (n : ℕ), n < k →
      ((year1RowsAux mode p k i r).get? n).map MonthRow.revenue
        = some (r * (1 + p.revGrowthMonthly) ^ (n + 1))
  | 0, _, _, n => by omega
  | k + 1, i, r, 0 => by
      intro _
      simp [year1RowsAux, year1MonthRow]
  | k + 1, i, r, n + 1 => by
      intro h
      have ih := year1RowsAux_revenue mode p k (i + 1)
        (r * (1 + p.revGrowthMonthly)) n (by omega)
      simp only [year1RowsAux, List.get?_cons_succ]
      rw [show (year1MonthRow mode p i r).revenue = r * (1 + p.revGrowthMonthly) from rfl]
      rw [ih]
      congr 1
      ring

/-- Claim C8 (amended): in the year-1 projection the growth factor is applied
before the first month is recorded, so month `m`'s revenue is
`(startingAnnualRevenue/12) * (1+g)^m` for `m = 1..12` (each month is the
previous month times `1+g`, but month 1 already grows off the
`startRev/12` base). -/
theorem year1_monthly_revenue (mode : String) (p : Params) (m : ℕ)
    (h1 : 1 ≤ m) (h2 : m ≤ 12) :
    ((year1Monthly mode p).get? (m - 1)).map MonthRow.revenue
      = some (p.startRev / 12 * (1 + p.revGrowthMonthly) ^ m) := by
  have h := year1RowsAux_revenue mode p 12 1 (p.startRev / 12) (m - 1) (by omega)
  have hm : m - 1 + 1 = m := by omega
  rw [year1Monthly, h, hm]

/-- Witness for C8: month 2 of the fixture assumptions. -/
theorem year1_monthly_revenue_witness :
    ((year1Monthly "percentOfRevenue" (projectionParams Fixtures.growthAssumptions)).get? 1).map
        MonthRow.revenue
      = some ((projectionParams Fixtures.growthAssumptions).startRev / 12 *
          (1 + (projectionParams Fixtures.growthAssumptions).revGrowthMonthly) ^ 2) :=
  year1_monthly_revenue "percentOfRevenue" (projectionParams Fixtures.growthAssumptions) 2
    (by norm_num) (by norm_num)

/-- Counterexample to C8 as stated: with starting annual revenue 12 and 100%
monthly growth, the first projected month's revenue is 2, not the
`startingAnnualRevenue / 12 = 1` the claim requires. -/
theorem year1_first_month_counterexample :
    ((projectionsMonthly Fixtures.growthAssumptions).head?).map MonthRow.revenue = some 2 ∧
    parseNum Fixtures.growthAssumptions.startingRevenue / 12 = 1 ∧ (2 : ℚ) ≠ 1 := by
  refine ⟨by decide, by decide, by norm_num⟩

end FinancialProjectionModeler

namespace ValuationCalculator

/-- Claim C6: the senior-loan payment (lines 531–536) follows the standard
amortizing formula `P * r / (1 - (1+r)^-n)` for positive monthly rate `r` and
positive term, degrades to `P / n` at rate 0, the advanced-mode annual debt
service is 12 times the monthly payment, and a 1,000,000 loan at 0% over 10
years yields annual debt service of exactly 100,000.  (In simple mode line
550 replaces the senior debt service by the flat 13% rule.) -/
theorem sba_payment_formula (loan ratePct : ℚ) (termYears : ℤ) :
    (0 < ratePct / 100 / 12 → 0 < termYears →
      monthlyAmortizingPayment loan ratePct termYears
        = loan * (ratePct / 100 / 12)
            / (1 - (1 + ratePct / 100 / 12) ^ (-(termYears * 12)))) ∧
    (ratePct = 0 → 0 < termYears →
      monthlyAmortizingPayment loan ratePct termYears = loan / ((termYears : ℚ) * 12)) ∧
    (∀ (inputs : ValuationInputs) (stressed : Bool),
      (calculations inputs true stressed).sbaDebtService
        = monthlyAmortizingPayment (parseCurrency inputs.loanAmount)
            (Js.orElse (Js.parseFloat inputs.sbaRate) 0)
            (Js.orElseInt (Js.parseIntTen inputs.sbaTerm) 0) * 12) ∧
    monthlyAmortizingPayment 1000000 0 10 * 12 = 100000 := by
  refine ⟨?_, ?_, fun inputs stressed => rfl, by decide⟩
  · intro hr ht
    simp only [monthlyAmortizingPayment]
    rw [if_pos ⟨by omega, hr⟩]
  · intro h0 ht
    subst h0
    simp only [monthlyAmortizingPayment]
    rw [if_neg (by norm_num), if_pos (by omega)]
    push_cast
    ring

/-- Witness for C6: the claim's own concrete instance, via the zero-rate
branch of the theorem. -/
theorem sba_payment_formula_witness :
    monthlyAmortizingPayment 1000000 0 10 = 1000000 / ((10 : ℚ) * 12) :=
  (sba_payment_formula 1000000 0 10).2.1 rfl (by norm_num)

/-- Claim C7: when senior loan plus total seller financing exceeds the
enterprise value, the advisory message is attached to all four debt-amount
fields, while every downstream output equals that of a run without the
validation (the embedded block is a total function — nothing is thrown). -/
theorem debt_validation_advisory (inputs : ValuationInputs) (adv stressed : Bool) :
    (parseCurrency inputs.sde * Js.orElse (Js.parseFloat inputs.askingMultiple) 0
        < parseCurrency inputs.loanAmount +
            (parseCurrency inputs.amortizingSellerNoteAmount +
             parseCurrency inputs.standbySellerNoteAmount +
             parseCurrency inputs.forgivableSellerNoteAmount) →
      (calculations inputs adv stressed).validationErrors
        = { loanAmount := some "Total debt cannot exceed EV.",
            amortizingSellerNoteAmount := some "Total debt cannot exceed EV.",
            standbySellerNoteAmount := some "Total debt cannot exceed EV.",
            forgivableSellerNoteAmount := some "Total debt cannot exceed EV." }) ∧
    (calculations inputs adv stressed).enterpriseValue
      = (calculationsWithoutValidation inputs adv stressed).enterpriseValue ∧
    (calculations inputs adv stressed).buyerEquity
      = (calculationsWithoutValidation inputs adv stressed).buyerEquity ∧
    (calculations inputs adv stressed).sbaDebtService
      = (calculationsWithoutValidation inputs adv stressed).sbaDebtService ∧
    (calculations inputs adv stressed).sellerNoteDebtService
      = (calculationsWithoutValidation inputs adv stressed).sellerNoteDebtService ∧
    (calculations inputs adv stressed).totalDebtService
      = (calculationsWithoutValidation inputs adv stressed).totalDebtService ∧
    (calculations inputs adv stressed).dscr
      = (calculationsWithoutValidation inputs adv stressed).dscr ∧
    (calculations inputs adv stressed).netCashFlowToOwner
      = (calculationsWithoutValidation inputs adv stressed).netCashFlowToOwner ∧
    (calculations inputs adv stressed).liquidityTarget
      = (calculationsWithoutValidation inputs adv stressed).liquidityTarget ∧
    (calculations inputs adv stressed).totalCashToClose
      = (calculationsWithoutValidation inputs adv stressed).totalCashToClose ∧
    (calculations inputs adv stressed).isDscrLow
      = (calculationsWithoutValidation inputs adv stressed).isDscrLow ∧
    (calculations inputs adv stressed).totalSellerFinancing
      = (calculationsWithoutValidation inputs adv stressed).totalSellerFinancing := by
  refine ⟨?_, rfl, rfl, rfl, rfl, rfl, rfl, rfl, rfl, rfl, rfl, rfl⟩
  intro h
  simp only [calculations]
  rw [if_pos h]

/-- Witness for C7: the fixture whose total debt 200 exceeds its enterprise
value 100. -/
theorem debt_validation_advisory_witness :
    (calculations Fixtures.violatingInputs true false).validationErrors
      = { loanAmount := some "Total debt cannot exceed EV.",
          amortizingSellerNoteAmount := some "Total debt cannot exceed EV.",
          standbySellerNoteAmount := some "Total debt cannot exceed EV.",
          forgivableSellerNoteAmount := some "Total debt cannot exceed EV." } ∧
    (calculations Fixtures.violatingInputs true false).buyerEquity
      = (calculationsWithoutValidation Fixtures.violatingInputs true false).buyerEquity :=
  ⟨(debt_validation_advisory Fixtures.violatingInputs true false).1 (by decide),
   (debt_validation_advisory Fixtures.violatingInputs true false).2.2.1⟩

/-- Claim C10: two input records that agree on every field the calculation
reads except the standby and forgivable seller-note amounts produce
identical senior-loan debt service, seller-note debt service, total debt
service, DSCR and net cash flow to owner — in simple and advanced mode,
stressed or not.  (The four trailing note fields are never read by the
block, so no hypothesis about them is needed.) -/
theorem standby_forgivable_noninterference (i1 i2 : ValuationInputs)
    (adv stressed : Bool)
    (h1 : i1.sde = i2.sde) (h2 : i1.askingMultiple = i2.askingMultiple)
    (h3 : i1.ownerSalary = i2.ownerSalary) (h4 : i1.closingCosts = i2.closingCosts)
    (h5 : i1.liquidityMonths = i2.liquidityMonths) (h6 : i1.loanAmount = i2.loanAmount)
    (h7 : i1.sbaTerm = i2.sbaTerm) (h8 : i1.sbaRate = i2.sbaRate)
    (h9 : i1.amortizingSellerNoteAmount = i2.amortizingSellerNoteAmount)
    (h10 : i1.amortizingNoteTerm = i2.amortizingNoteTerm)
    (h11 : i1.amortizingNoteRate = i2.amortizingNoteRate)
    (h12 : i1.amortizingNoteType = i2.amortizingNoteType)
    (h13 : i1.stressTestPercent = i2.stressTestPercent) :
    (calculations i1 adv stressed).sbaDebtService
      = (calculations i2 adv stressed).sbaDebtService ∧
    (calculations i1 adv stressed).sellerNoteDebtService
      = (calculations i2 adv stressed).sellerNoteDebtService ∧
    (calculations i1 adv stressed).totalDebtService
      = (calculations i2 adv stressed).totalDebtService ∧
    (calculations i1 adv stressed).dscr = (calculations i2 adv stressed).dscr ∧
    (calculations i1 adv stressed).netCashFlowToOwner
      = (calculations i2 adv stressed).netCashFlowToOwner := by
  obtain ⟨a1, a2, a3, a4, a5, a6, a7, a8, a9, a10, a11, a12, a13, a14, a15, a16, a17, a18, a19⟩ := i1
  obtain ⟨b1, b2, b3, b4, b5, b6, b7, b8, b9, b10, b11, b12, b13, b14, b15, b16, b17, b18, b19⟩ := i2
  simp only at h1 h2 h3 h4 h5 h6 h7 h8 h9 h10 h11 h12 h13
  subst h1 h2 h3 h4 h5 h6 h7 h8 h9 h10 h11 h12 h13
  exact ⟨rfl, rfl, rfl, rfl, rfl⟩

/-- Witness for C10: adding 150,000 standby and forgivable notes to the base
fixture changes neither the total debt service nor the DSCR. -/
theorem standby_forgivable_noninterference_witness :
    (calculations Fixtures.baseInputs true false).totalDebtService
      = (calculations Fixtures.notedInputs true false).totalDebtService ∧
    (calculations Fixtures.baseInputs true false).dscr
      = (calculations Fixtures.notedInputs true false).dscr :=
  ⟨(standby_forgivable_noninterference Fixtures.baseInputs Fixtures.notedInputs true false
      rfl rfl rfl rfl rfl rfl rfl rfl rfl rfl rfl rfl rfl).2.2.1,
   (standby_forgivable_noninterference Fixtures.baseInputs Fixtures.notedInputs true false
      rfl rfl rfl rfl rfl rfl rfl rfl rfl rfl rfl rfl rfl).2.2.2.1⟩

end ValuationCalculator

namespace FitScore

lemma foldl_add_map {α : Type} (f : α → ℚ) :
    ∀ (l : List α) (a : ℚ), l.foldl (fun acc x => acc + f x) a = a + (l.map f).sum
  | [], a => by simp
  | x :: l, a => by
      rw [List.foldl_cons, foldl_add_map f l (a + f x), List.map_cons, List.sum_cons]
      ring

/-- Claim C3 (amended): for every NONEMPTY scorecard text and buy box with
positive total possible score, both copies return
`round(achievedScore / totalPossibleScore * 100)` where `achievedScore` is
the sum over the data rows (all lines after the first two) of the per-row
contribution, and a row with at least four columns whose criterion maps to a
weighted criterion contributes the full weight when its normalized Fit cell
is `"yes"`, 30% of the weight when it is `"?"`, and 0 otherwise.  (The empty
scorecard text instead returns `null` before anything is computed — see the
counterexample.) -/
theorem fit_score_formula (sc : String) (bb : BuyBoxCriteria)
    (hsc : sc ≠ "") (hw : 0 < totalPossibleScore bb) :
    SourcingEngine.calculateOverallFitScore sc bb
      = some (Js.round ((((Js.split sc "\n").drop 2).map (SourcingEngine.rowScore bb)).sum
          / totalPossibleScore bb * 100)) ∧
    CentralDashboard.calculateOverallFitScore sc bb
      = some (Js.round ((((Js.split sc "\n").drop 2).map (CentralDashboard.rowScore bb)).sum
          / totalPossibleScore bb * 100)) ∧
    (∀ (row : String) (key : BuyBoxKey) (w : ℚ),
        4 ≤ (rowColumns row).length →
        nameToKey (SourcingEngine.nameNorm ((rowColumns row).getD 1 "")) = some key →
        weightOfKey bb key = some w →
        SourcingEngine.rowScore bb row
          = (if SourcingEngine.fitNorm ((rowColumns row).getD 3 "") = "yes" then w
             else if SourcingEngine.fitNorm ((rowColumns row).getD 3 "") = "?" then w * (3 / 10)
             else 0)) ∧
    (∀ (row : String) (key : BuyBoxKey) (w : ℚ),
        4 ≤ (rowColumns row).length →
        nameToKey (CentralDashboard.nameNorm ((rowColumns row).getD 1 "")) = some key →
        weightOfKey bb key = some w →
        CentralDashboard.rowScore bb row
          = (if CentralDashboard.fitNorm ((rowColumns row).getD 3 "") = "yes" then w
             else if CentralDashboard.fitNorm ((rowColumns row).getD 3 "") = "?" then w * (3 / 10)
             else 0)) := by
  refine ⟨?_, ?_, ?_, ?_⟩
  · simp only [SourcingEngine.calculateOverallFitScore]
    rw [if_neg hsc, if_neg hw.ne']
    rw [foldl_add_map, zero_add]
  · simp only [CentralDashboard.calculateOverallFitScore]
    rw [if_neg hsc, if_neg hw.ne']
    rw [foldl_add_map, zero_add]
  · intro row key w hlen hkey hwk
    simp only [SourcingEngine.rowScore, if_pos hlen, hkey, hwk]
  · intro row key w hlen hkey hwk
    simp only [CentralDashboard.rowScore, if_pos hlen, hkey, hwk]

/-- Witness for C3: the specification's §8 example (Geography weight 2 "Yes",
Industry weight 3 "No") scores 40 in both copies. -/
theorem fit_score_formula_witness :
    SourcingEngine.calculateOverallFitScore Fixtures.exScorecard Fixtures.geoIndustryBuyBox
      = some 40 ∧
    CentralDashboard.calculateOverallFitScore Fixtures.exScorecard Fixtures.geoIndustryBuyBox
      = some 40 := by
  have h := fit_score_formula Fixtures.exScorecard Fixtures.geoIndustryBuyBox
    (by decide) (by decide)
  exact ⟨by rw [h.1]; decide, by rw [h.2.1]; decide⟩

/-- Counterexample to C3 as stated: at the empty scorecard text (universally
quantified by the claim) with a positive-total buy box, the function returns
`null`, not the `round(0 / totalPossibleScore * 100) = 0` the claimed
formula requires. -/
theorem fit_score_empty_counterexample :
    SourcingEngine.calculateOverallFitScore "" Fixtures.geoIndustryBuyBox = none ∧
    0 < totalPossibleScore Fixtures.geoIndustryBuyBox ∧
    (none : Option ℤ)
      ≠ some (Js.round (0 / totalPossibleScore Fixtures.geoIndustryBuyBox * 100)) := by
  refine ⟨by decide, by decide, by decide⟩

/-- Claim C5 (amended): for every NONEMPTY scorecard text, a buy box in which
every criterion's weight is 0 makes both copies return exactly 50; the empty
scorecard text instead returns `null` (the emptiness guard runs before the
zero-total default). -/
theorem zero_weight_default_fifty (sc : String) (bb : BuyBoxCriteria) (hsc : sc ≠ "")
    (hg : bb.geography.weight = 0) (hi : bb.industryType.weight = 0)
    (hmin : bb.minSde.weight = 0) (hmax : bb.maxSde.weight = 0)
    (hcc : bb.customerConcentration.weight = 0) (hrr : bb.minRecurringRevenue.weight = 0)
    (hgl : bb.growthLevers.weight = 0) (hit : bb.industryTrends.weight = 0)
    (hsr : bb.sellerRole.weight = 0) (hts : bb.teamStrength.weight = 0)
    (hbm : bb.businessModel.weight = 0) (hsm : bb.systemMessiness.weight = 0)
    (hmr : bb.myPrimaryRole.weight = 0) :
    SourcingEngine.calculateOverallFitScore sc bb = some 50 ∧
    CentralDashboard.calculateOverallFitScore sc bb = some 50 := by
  have ht : totalPossibleScore bb = 0 := by
    simp [totalPossibleScore, hg, hi, hmin, hmax, hcc, hrr, hgl, hit, hsr, hts, hbm, hsm, hmr]
  constructor
  · simp only [SourcingEngine.calculateOverallFitScore]
    rw [if_neg hsc, if_pos ht]
  · simp only [CentralDashboard.calculateOverallFitScore]
    rw [if_neg hsc, if_pos ht]

/-- Witness for C5: an arbitrary nonempty scorecard with the all-zero buy
box scores 50 in both copies. -/
theorem zero_weight_default_fifty_witness :
    SourcingEngine.calculateOverallFitScore "x" Fixtures.zeroBuyBox = some 50 ∧
    CentralDashboard.calculateOverallFitScore "x" Fixtures.zeroBuyBox = some 50 :=
  zero_weight_default_fifty "x" Fixtures.zeroBuyBox (by decide)
    rfl rfl rfl rfl rfl rfl rfl rfl rfl rfl rfl rfl rfl

/-- Counterexample to C5 as stated: the claim includes the empty scorecard
text, but both copies return `null` there, not 50. -/
theorem zero_weight_empty_counterexample :
    SourcingEngine.calculateOverallFitScore "" Fixtures.zeroBuyBox = none ∧
    CentralDashboard.calculateOverallFitScore "" Fixtures.zeroBuyBox = none ∧
    (none : Option ℤ) ≠ some 50 := by
  refine ⟨by decide, by decide, by decide⟩

lemma stripTagsAux_nil : ∀ f, stripTagsAux f [] = [] := by
  intro f; cases f <;> rfl

lemma stripTagsAux_congr : ∀ (f1 f2 : ℕ) (l : List Char),
    l.length ≤ f1 → l.length ≤ f2 → stripTagsAux f1 l = stripTagsAux f2 l
  | _, _, [], _, _ => by rw [stripTagsAux_nil, stripTagsAux_nil]
  | 0, _, c :: rest, h1, _ => by simp at h1
  | _ + 1, 0, c :: rest, _, h2 => by simp at h2
  | f1 + 1, f2 + 1, c :: rest, h1, h2 => by
      simp only [stripTagsAux]
      by_cases hc : c = '<' ∧ rest.takeWhile (fun d => d ≠ '>') ≠ [] ∧
          rest.drop (rest.takeWhile (fun d => d ≠ '>')).length ≠ []
      · rw [if_pos hc, if_pos hc]
        apply stripTagsAux_congr
        · simp only [List.length_drop]
          simp only [List.length_cons] at h1
          omega
        · simp only [List.length_drop]
          simp only [List.length_cons] at h2
          omega
      · rw [if_neg hc, if_neg hc]
        simp only [List.length_cons] at h1 h2
        exact congrArg (c :: ·) (stripTagsAux_congr f1 f2 rest (by omega) (by omega))

lemma stripTags_cons_ne (c : Char) (l : List Char) (hc : c ≠ '<') :
    stripTags (c :: l) = c :: stripTags l := by
  show stripTagsAux (c :: l).length (c :: l) = _
  simp only [List.length_cons, stripTagsAux]
  rw [if_neg (fun h => hc h.1)]
  rfl

lemma stripTags_nolt : ∀ (l : List Char), (∀ c ∈ l, c ≠ '<') → stripTags l = l
  | [], _ => rfl
  | c :: l, h => by
      rw [stripTags_cons_ne c l (h c (List.mem_cons_self c l)),
          stripTags_nolt l (fun d hd => h d (List.mem_cons_of_mem c hd))]

lemma stripTags_close_tag : ∀ (m : List Char), (∀ c ∈ m, c ≠ '<') →
    stripTags (m ++ ['<', '/', 'b', '>']) = m
  | [], _ => by decide
  | c :: m, h => by
      rw [List.cons_append, stripTags_cons_ne c _ (h c (List.mem_cons_self c m)),
          stripTags_close_tag m (fun d hd => h d (List.mem_cons_of_mem c hd))]

lemma stripTags_open_bold (l : List Char) :
    stripTags ('<' :: 'b' :: '>' :: l) = stripTags l := by
  show stripTagsAux ('<' :: 'b' :: '>' :: l).length ('<' :: 'b' :: '>' :: l) = _
  rw [show ('<' :: 'b' :: '>' :: l).length = (l.length + 2) + 1 by simp]
  simp only [stripTagsAux]
  have htag : ('b' :: '>' :: l).takeWhile (fun d => (d ≠ '>' : Bool)) = ['b'] := by
    rw [List.takeWhile_cons, if_pos (by decide), List.takeWhile_cons, if_neg (by decide)]
  rw [htag]
  rw [if_pos (by simp)]
  rw [show ('b' :: '>' :: l).drop ((['b']).length + 1) = l by simp]
  exact stripTagsAux_congr _ _ l (by omega) le_rfl

/-- Claim C4 (amended): only the dashboard copy strips HTML tags from the
Fit cell before comparing — a `<b>`-wrapped cell normalizes to the same
string as the bare cell there, while the sourcing-engine copy only
lowercases, so the tags survive; consequently a Fit cell `<b>Yes</b>`
scores the full weight in the dashboard copy but 0 in the sourcing copy (see
also the counterexample). -/
theorem fit_tag_strip_divergence :
    (∀ (cell : String), (∀ c ∈ cell.data, Char.toLower c ≠ '<') →
        CentralDashboard.fitNorm ("<b>" ++ cell ++ "</b>") = CentralDashboard.fitNorm cell) ∧
    (∀ (cell : String),
        SourcingEngine.fitNorm ("<b>" ++ cell ++ "</b>")
          = "<b>" ++ SourcingEngine.fitNorm cell ++ "</b>") ∧
    CentralDashboard.calculateOverallFitScore Fixtures.boldScorecard Fixtures.geoBuyBox
      = CentralDashboard.calculateOverallFitScore Fixtures.plainScorecard Fixtures.geoBuyBox ∧
    SourcingEngine.calculateOverallFitScore Fixtures.boldScorecard Fixtures.geoBuyBox
      ≠ SourcingEngine.calculateOverallFitScore Fixtures.plainScorecard Fixtures.geoBuyBox := by
  refine ⟨?_, ?_, by decide, by decide⟩
  · intro cell hc
    have hdata : ("<b>" ++ cell ++ "</b>").data
        = '<' :: 'b' :: '>' :: (cell.data ++ ['<', '/', 'b', '>']) := rfl
    simp only [CentralDashboard.fitNorm, Js.lower, hdata]
    rw [List.map_cons, List.map_cons, List.map_cons, List.map_append]
    rw [show Char.toLower '<' = '<' from rfl, show Char.toLower 'b' = 'b' from rfl,
        show Char.toLower '>' = '>' from rfl]
    rw [show List.map Char.toLower ['<', '/', 'b', '>'] = ['<', '/', 'b', '>'] from rfl]
    have hfree : ∀ d ∈ cell.data.map Char.toLower, d ≠ '<' := by
      intro d hd
      rcases List.mem_map.mp hd with ⟨c0, hc0, rfl⟩
      exact hc c0 hc0
    rw [stripTags_open_bold, stripTags_close_tag _ hfree, stripTags_nolt _ hfree]
  · intro cell
    show (⟨(("<b>" ++ cell ++ "</b>").data).map Char.toLower⟩ : String)
        = ⟨'<' :: 'b' :: '>' :: ((cell.data.map Char.toLower) ++ ['<', '/', 'b', '>'])⟩
    apply congrArg
    rw [show ("<b>" ++ cell ++ "</b>").data
          = '<' :: 'b' :: '>' :: (cell.data ++ ['<', '/', 'b', '>']) from rfl]
    rw [List.map_cons, List.map_cons, List.map_cons, List.map_append]
    rw [show Char.toLower '<' = '<' from rfl, show Char.toLower 'b' = 'b' from rfl,
        show Char.toLower '>' = '>' from rfl]
    rw [show List.map Char.toLower ['<', '/', 'b', '>'] = ['<', '/', 'b', '>'] from rfl]

/-- Witness for C4: the tag-insensitivity of the dashboard normalization,
instantiated at the cell `"Yes"`. -/
theorem fit_tag_strip_divergence_witness :
    CentralDashboard.fitNorm ("<b>" ++ "Yes" ++ "</b>") = CentralDashboard.fitNorm "Yes" :=
  fit_tag_strip_divergence.1 "Yes" (by decide)

/-- Counterexample to C4 as stated: on a scorecard whose Geography Fit cell
is `<b>Yes</b>`, the dashboard copy scores 100 while the sourcing-engine
copy scores 0 — the two call sites do NOT score HTML-wrapped cells the
same. -/
theorem fit_html_strip_counterexample :
    CentralDashboard.calculateOverallFitScore Fixtures.boldScorecard Fixtures.geoBuyBox
      = some 100 ∧
    SourcingEngine.calculateOverallFitScore Fixtures.boldScorecard Fixtures.geoBuyBox
      = some 0 := by
  refine ⟨by decide, by decide⟩

end FitScore

/-- Claim C2 (amended): the three parsers never raise (they are total
functions into `ℚ`) and degrade unparseable remainders to 0, but their
stripping differs from the claim: the financial hub's `parseNum` strips ONLY
commas (any other non-numeric character defeats the parse — a leading `$`
forces 0); the projection modeler's `parseNum` strips everything except
digits, dots and minus signs; the valuation calculator's `parseCurrency`
strips everything except digits and dots, signs included. -/
theorem numeric_parser_stripping :
    ∀ (s : String),
      FinancialAnalysisHub.parseNum ⟨'$' :: s.data⟩ = 0 ∧
      FinancialAnalysisHub.parseNum ⟨',' :: s.data⟩ = FinancialAnalysisHub.parseNum s ∧
      FinancialProjectionModeler.parseNum ⟨'$' :: s.data⟩ = FinancialProjectionModeler.parseNum s ∧
      ValuationCalculator.parseCurrency ⟨'$' :: s.data⟩ = ValuationCalculator.parseCurrency s ∧
      ValuationCalculator.parseCurrency ⟨'-' :: s.data⟩ = ValuationCalculator.parseCurrency s :=
  fun _ => ⟨rfl, rfl, rfl, rfl, rfl⟩

/-- Counterexample to C2 as stated: stripping "any non-numeric characters
except sign and decimal point" would parse `"$5"` to 5 and `"-5"` to −5 (as
the spec-side `specParseAmount` does), but the hub's `parseNum` returns 0 on
`"$5"` and `parseCurrency` returns 5 on `"-5"`. -/
theorem parse_strip_counterexample :
    FinancialAnalysisHub.parseNum "$5" = 0 ∧ specParseAmount "$5" = 5 ∧
    ValuationCalculator.parseCurrency "-5" = 5 ∧ specParseAmount "-5" = -5 ∧
    (0 : ℚ) ≠ 5 ∧ (5 : ℚ) ≠ -5 := by
  refine ⟨by decide, by decide, by decide, by decide, by norm_num, by norm_num⟩

end ClaimTheorems

end AcqOS
